import Mathlib

/-!
Verification of the Planisuss world simulation engine.

The definitions below are a shallow embedding of the engine found in
`planisuss_main.py` together with the constants of `planisuss_constants.py`.
Python integers are modelled as `ℤ`, Python floats carrying social attitudes
as `ℚ` (all float operations performed on them here are sums, products,
divisions and comparisons of small decimal constants, which the rational
model reproduces faithfully at the decision points studied), and Python
lists as `List`.  Python's stable `list.sort(key=...)` is modelled by
`List.insertionSort` with the corresponding non-strict relation, which is
stable in the same sense.
-/

attribute [local semireducible] Rat.mul Rat.add Rat.sub Rat.inv Rat.ofScientific

/- ------------------------------------------------------------------ -/
/- Constants (planisuss_constants.py)                                  -/
/- ------------------------------------------------------------------ -/

def MAX_HERD : ℕ := 300

def MAX_PRIDE : ℕ := 100

def MAX_ENERGY_E : ℤ := 100

def MAX_ENERGY_C : ℤ := 100

def MAX_LIFE_E : ℤ := 1000

def MAX_LIFE_C : ℤ := 1000

def MIN_LIFE_E : ℤ := 10

def MIN_LIFE_C : ℤ := 10

def AGING_E : ℤ := 1

def AGING_C : ℤ := 1

def HUNGER_E : ℚ := 11/10

def HUNGER_C : ℚ := 103/100

def EAT_E : ℚ := 1/100

def EAT_C : ℚ := 5/100

def WIN_FIGHT : ℚ := 1/10

def MIN_MOVEMENT_E : ℚ := 3

def MAX_MOVEMENT_E : ℚ := 300

def MIN_MOVEMENT_C : ℚ := 3

def MAX_MOVEMENT_C : ℚ := 300

def JOIN_PRIDE : ℚ := 9/10

/- ------------------------------------------------------------------ -/
/- Agents (class Specie / Erbast / Carviz)                             -/
/- ------------------------------------------------------------------ -/

/-- An individual animal (class `Specie`, shared by `Erbast` and `Carviz`):
energy, lifetime, age, social attitude and the per-day `moved` flag. -/
structure Specie where
  energy : ℤ
  lifetime : ℤ
  age : ℤ
  social_attitude : ℚ
  moved : Bool
deriving DecidableEq

/- ------------------------------------------------------------------ -/
/- Stable sorting by energy (Python list.sort(key=energy))             -/
/- ------------------------------------------------------------------ -/

/-- Relation ordering animals by decreasing energy
(`sort(key=lambda a: a.energy, reverse=True)`). -/
def energyDesc (a b : Specie) : Prop := b.energy ≤ a.energy

/-- Relation ordering animals by increasing energy
(`sort(key=lambda a: a.energy)`). -/
def energyAsc (a b : Specie) : Prop := a.energy ≤ b.energy

instance : DecidableRel energyDesc :=
  fun a b => inferInstanceAs (Decidable (b.energy ≤ a.energy))

instance : DecidableRel energyAsc :=
  fun a b => inferInstanceAs (Decidable (a.energy ≤ b.energy))

instance : IsTotal Specie energyDesc := ⟨fun a b => le_total b.energy a.energy⟩

instance : IsTotal Specie energyAsc := ⟨fun a b => le_total a.energy b.energy⟩

instance : IsTrans Specie energyDesc := ⟨fun _ _ _ hab hbc => le_trans hbc hab⟩

instance : IsTrans Specie energyAsc := ⟨fun _ _ _ hab hbc => le_trans hab hbc⟩

/-- `population.sort(key=lambda a: a.energy, reverse=True)` (stable). -/
def sortDescByEnergy (l : List Specie) : List Specie := List.insertionSort energyDesc l

/-- `population.sort(key=lambda a: a.energy)` (stable). -/
def sortAscByEnergy (l : List Specie) : List Specie := List.insertionSort energyAsc l

/- ------------------------------------------------------------------ -/
/- Reproduction (Group.spawning, offspring construction)               -/
/- ------------------------------------------------------------------ -/

/-- The two offspring built by `Group.spawning` for a parent that reached
`age == lifetime`.  The random draws `energy1`, `lifetime1` and
`social_attitude1` are passed as parameters; the sibling values are the
exact complements computed by the source:
`energy2 = animal.energy - energy1`, `lifetime2 = 2*animal.lifetime - lifetime1`,
`social_attitude2 = 2*animal.social_attitude - social_attitude1`,
and both ages are reset to 0 (`create_animal` default). -/
def spawn_offsprings (animal : Specie) (energy1 lifetime1 : ℤ) (social_attitude1 : ℚ) :
    Specie × Specie :=
  (⟨energy1, lifetime1, 0, social_attitude1, false⟩,
   ⟨animal.energy - energy1, 2 * animal.lifetime - lifetime1, 0,
    2 * animal.social_attitude - social_attitude1, false⟩)

/-- Admissible range of the random draw `energy1 = random.randint(1, max(1, animal.energy - 1))`. -/
def energy1_draw_ok (animal : Specie) (energy1 : ℤ) : Prop :=
  1 ≤ energy1 ∧ energy1 ≤ max 1 (animal.energy - 1)

/-- Admissible range of the random draw
`lifetime1 = random.randint(1, min(2*animal.lifetime - 1, MAX_LIFE))`. -/
def lifetime1_draw_ok (MAX_LIFE : ℤ) (animal : Specie) (lifetime1 : ℤ) : Prop :=
  1 ≤ lifetime1 ∧ lifetime1 ≤ min (2 * animal.lifetime - 1) MAX_LIFE

/-- C3: for every reproducing parent (age equal to lifetime, not terminated
this day) and every admissible pair of random draws, the two offspring built
by `Group.spawning` satisfy `energy1 + energy2 = parent.energy` and
`lifetime1 + lifetime2 = 2 * parent.lifetime`, as exact integer arithmetic. -/
theorem spawning_conservation (MAX_LIFE : ℤ) (animal : Specie)
    (energy1 lifetime1 : ℤ) (social_attitude1 : ℚ)
    (hage : animal.age = animal.lifetime)
    (halive : animal.energy ≠ 0)
    (he : energy1_draw_ok animal energy1)
    (hl : lifetime1_draw_ok MAX_LIFE animal lifetime1) :
    (spawn_offsprings animal energy1 lifetime1 social_attitude1).1.energy
      + (spawn_offsprings animal energy1 lifetime1 social_attitude1).2.energy
      = animal.energy ∧
    (spawn_offsprings animal energy1 lifetime1 social_attitude1).1.lifetime
      + (spawn_offsprings animal energy1 lifetime1 social_attitude1).2.lifetime
      = 2 * animal.lifetime := by
  refine ⟨?_, ?_⟩ <;> simp [spawn_offsprings] <;> ring

/-- C3 witness: the conservation law instantiated at a concrete parent
(energy 10, lifetime 20, age 20) and the concrete draws
`energy1 = 3`, `lifetime1 = 7`. -/
theorem spawning_conservation_witness :
    (spawn_offsprings ⟨10, 20, 20, 1/2, false⟩ 3 7 (1/4)).1.energy
      + (spawn_offsprings ⟨10, 20, 20, 1/2, false⟩ 3 7 (1/4)).2.energy = 10 ∧
    (spawn_offsprings ⟨10, 20, 20, 1/2, false⟩ 3 7 (1/4)).1.lifetime
      + (spawn_offsprings ⟨10, 20, 20, 1/2, false⟩ 3 7 (1/4)).2.lifetime = 40 := by
  have h := spawning_conservation MAX_LIFE_E ⟨10, 20, 20, 1/2, false⟩ 3 7 (1/4)
    (by decide) (by decide)
    (by constructor <;> decide)
    (by constructor <;> decide)
  exact h

/- ------------------------------------------------------------------ -/
/- Movement (Herd.movement / Pride.movement, individual split)         -/
/- ------------------------------------------------------------------ -/

/-- The individual split of `Herd.movement`: given the group-level decision
(`will_move`), partition the population into the Erbast that stay (first
component, `moved := false`) and the Erbast that move (second component,
`moved := true`, one energy point paid), with the source's comprehension
conditions.  In the move branch the followers satisfy
`energy * social_attitude >= MIN_MOVEMENT_E and energy > 1`; in the stay
branch the escapers satisfy
`energy / social_attitude > MAX_MOVEMENT_E and energy > 1`. -/
def herd_movement (will_move : Bool) (pop : List Specie) : List Specie × List Specie :=
  let move_erbast :=
    if will_move then
      pop.filter (fun e => decide (MIN_MOVEMENT_E ≤ (e.energy : ℚ) * e.social_attitude)
        && decide (1 < e.energy))
    else
      pop.filter (fun e => decide (MAX_MOVEMENT_E < (e.energy : ℚ) / e.social_attitude)
        && decide (1 < e.energy))
  let stay_erbast :=
    if will_move then
      pop.filter (fun e => decide ((e.energy : ℚ) * e.social_attitude < MIN_MOVEMENT_E)
        || decide (e.energy ≤ 1))
    else
      pop.filter (fun e => decide ((e.energy : ℚ) / e.social_attitude ≤ MAX_MOVEMENT_E)
        || decide (e.energy ≤ 1))
  (stay_erbast.map (fun e => { e with moved := false }),
   move_erbast.map (fun e => { e with moved := true, energy := e.energy - 1 }))

/-- The individual split of `Pride.movement`, same shape as `herd_movement`.
The move branch matches the Herd case, but in the stay branch the source
selects as movers the Carviz with
`energy / social_attitude <= MAX_MOVEMENT_C and energy > 1` (and as stayers
those with `energy / social_attitude > MAX_MOVEMENT_C or energy <= 1`),
the opposite comparison of the Herd case. -/
def pride_movement (will_move : Bool) (pop : List Specie) : List Specie × List Specie :=
  let stay_carviz :=
    if will_move then
      pop.filter (fun c => decide ((c.energy : ℚ) * c.social_attitude < MIN_MOVEMENT_C)
        || decide (c.energy ≤ 1))
    else
      pop.filter (fun c => decide (MAX_MOVEMENT_C < (c.energy : ℚ) / c.social_attitude)
        || decide (c.energy ≤ 1))
  let move_carviz :=
    if will_move then
      pop.filter (fun c => decide (MIN_MOVEMENT_C ≤ (c.energy : ℚ) * c.social_attitude)
        && decide (1 < c.energy))
    else
      pop.filter (fun c => decide ((c.energy : ℚ) / c.social_attitude ≤ MAX_MOVEMENT_C)
        && decide (1 < c.energy))
  (stay_carviz.map (fun c => { c with moved := false }),
   move_carviz.map (fun c => { c with moved := true, energy := c.energy - 1 }))

/-- C7: in the stay branch, `Pride.movement` moves exactly the Carviz with
`energy / social_attitude <= MAX_MOVEMENT_C`, not those above the
threshold: a Carviz with energy 2 and social attitude 1 (ratio 2, far below
the threshold 300) is moved by the pride code, while the identical Erbast
is kept in place by the herd code, and the claimed divergence condition
`energy / social_attitude > MAX_MOVEMENT` is false for it. -/
theorem pride_stay_branch_inverted :
    herd_movement false [⟨2, 100, 0, 1, false⟩] = ([⟨2, 100, 0, 1, false⟩], []) ∧
    pride_movement false [⟨2, 100, 0, 1, false⟩] = ([], [⟨1, 100, 0, 1, true⟩]) ∧
    ¬ (MAX_MOVEMENT_C < ((2 : ℤ) : ℚ) / 1) := by
  refine ⟨by decide, by decide, by decide⟩

/-- C10: movers are selected only when `energy > 1` and pay exactly one
energy point, so every mover ends the movement split with energy at least 1
and `moved = true`; every stayer ends with `moved = false` and an energy
value equal to that of an agent of the input population.  This holds for
both branches of both `Herd.movement` and `Pride.movement`. -/
theorem movement_keeps_energy_positive (b : Bool) (pop : List Specie) :
    (∀ a ∈ (herd_movement b pop).2,
      1 ≤ a.energy ∧ a.moved = true ∧ ∃ a0 ∈ pop, a.energy = a0.energy - 1) ∧
    (∀ a ∈ (herd_movement b pop).1, a.moved = false ∧ ∃ a0 ∈ pop, a.energy = a0.energy) ∧
    (∀ a ∈ (pride_movement b pop).2,
      1 ≤ a.energy ∧ a.moved = true ∧ ∃ a0 ∈ pop, a.energy = a0.energy - 1) ∧
    (∀ a ∈ (pride_movement b pop).1, a.moved = false ∧ ∃ a0 ∈ pop, a.energy = a0.energy) := by
  refine ⟨?_, ?_, ?_, ?_⟩ <;> intro a ha <;> cases b <;>
    simp only [herd_movement, pride_movement, Bool.false_eq_true, if_false, if_true,
      List.mem_map, List.mem_filter, Bool.and_eq_true, Bool.or_eq_true,
      decide_eq_true_eq] at ha <;>
    obtain ⟨e, ⟨hmem, hcond⟩, rfl⟩ := ha <;>
    first
      | exact ⟨rfl, e, hmem, rfl⟩
      | exact ⟨show (1 : ℤ) ≤ e.energy - 1 by have h2 := hcond.2; omega, rfl, e, hmem, rfl⟩

/-- C10 witness: in a herd that decided to move, a follower with energy 5
ends the split with energy 4 (at least 1) and `moved = true`. -/
theorem movement_keeps_energy_positive_witness :
    1 ≤ (Specie.mk 4 100 0 1 true).energy ∧ (Specie.mk 4 100 0 1 true).moved = true ∧
    ∃ a0 ∈ [Specie.mk 5 100 0 1 false], (Specie.mk 4 100 0 1 true).energy = a0.energy - 1 := by
  have h := (movement_keeps_energy_positive true [⟨5, 100, 0, 1, false⟩]).1
  exact h ⟨4, 100, 0, 1, true⟩ (by decide)

/- ------------------------------------------------------------------ -/
/- Merging (Group.join_groups, Herd.unify, Pride.unify decision)       -/
/- ------------------------------------------------------------------ -/

/-- `Group.join_groups`: pool the populations of all groups in `group_list`
(`reduce(lambda x, y: x + y.population, group_list, list())`); if the merged
population is larger than `MAX_GROUP`, sort it by decreasing energy and keep
the slice `[0 : MAX_GROUP + 1]`. -/
def join_groups (group_list : List (List Specie)) (MAX_GROUP : ℕ) : List Specie :=
  let pop := group_list.foldl (fun x y => x ++ y) []
  if MAX_GROUP < pop.length then (sortDescByEnergy pop).take (MAX_GROUP + 1) else pop

/-- `Herd.unify`: all herds of a cell are pooled with cap `MAX_HERD`. -/
def herd_unify (herd_list : List (List Specie)) : List Specie :=
  join_groups herd_list MAX_HERD

/-- `Group.update_stats` aggregate for social attitude: the SUM of the
social attitudes over the population. -/
def total_social_attitude (pop : List Specie) : ℚ :=
  (pop.map (fun a => a.social_attitude)).sum

/-- The join-or-fight decision of `Pride.unify` for the two candidate
prides, as in the source: join when the sum of the two TOTAL social
attitudes exceeds `JOIN_PRIDE` and the combined population is strictly
below `MAX_PRIDE`; in every other case the prides fight. -/
def pride_join_decision (pride1 pride2 : List Specie) : Bool :=
  decide (JOIN_PRIDE < total_social_attitude pride1 + total_social_attitude pride2) &&
  decide (pride1.length + pride2.length < MAX_PRIDE)

/-- The join condition following the words of the specification instead of
the source, for comparison: the sum of the two AVERAGE social attitudes is
compared against `JOIN_PRIDE` (the population condition is unchanged). -/
def pride_join_decision_spec (pride1 pride2 : List Specie) : Bool :=
  decide (JOIN_PRIDE < total_social_attitude pride1 / pride1.length
    + total_social_attitude pride2 / pride2.length) &&
  decide (pride1.length + pride2.length < MAX_PRIDE)

set_option maxRecDepth 8000 in
/-- C1: after the slice `[0 : MAX_GROUP + 1]` of `Group.join_groups`, a
merged herd of 301 Erbast still holds 301 Erbast, one more than the cap
`MAX_HERD = 300`, so the merged population is not bounded by the species
cap as claimed. -/
theorem herd_unify_exceeds_cap :
    (herd_unify [List.replicate 301 ⟨50, 100, 0, 1/2, false⟩]).length = 301 ∧
    MAX_HERD < (herd_unify [List.replicate 301 ⟨50, 100, 0, 1/2, false⟩]).length := by
  refine ⟨by decide, by decide⟩

/-- C5: two prides of two Carviz whose social attitudes are all 3/10: the
source's decision (sum of TOTAL social attitudes, 12/10 > 9/10) is to join,
while the claimed decision (sum of AVERAGE social attitudes, 6/10 < 9/10)
is to fight. -/
theorem pride_join_uses_total_not_mean :
    pride_join_decision
        [⟨10, 100, 0, 3/10, false⟩, ⟨10, 100, 0, 3/10, false⟩]
        [⟨10, 100, 0, 3/10, false⟩, ⟨10, 100, 0, 3/10, false⟩] = true ∧
    pride_join_decision_spec
        [⟨10, 100, 0, 3/10, false⟩, ⟨10, 100, 0, 3/10, false⟩]
        [⟨10, 100, 0, 3/10, false⟩, ⟨10, 100, 0, 3/10, false⟩] = false := by
  refine ⟨by decide, by decide⟩

/- ------------------------------------------------------------------ -/
/- Grazing and hunting (Herd.grazing, Pride.hunting)                   -/
/- ------------------------------------------------------------------ -/

/-- `Herd.grazing` on the cell's Vegetob density `veg`: the Erbast that did
not move graze.  If `veg` covers all of them, each gains one energy point
and `veg` decreases by their number; otherwise they are sorted by
increasing energy, the first `veg` of them gain one energy point, the rest
have their social attitude divided by `HUNGER_E`, and `veg` drops to 0.
The result is the updated density and the updated population (movers first,
as in the source's `moved_erbast + static_erbast`). -/
def grazing (veg : ℤ) (pop : List Specie) : ℤ × List Specie :=
  let moved_erbast := pop.filter (fun e => e.moved)
  let static_erbast := pop.filter (fun e => !e.moved)
  if (static_erbast.length : ℤ) ≤ veg then
    (veg - static_erbast.length,
     moved_erbast ++ static_erbast.map (fun e => { e with energy := e.energy + 1 }))
  else
    (0, moved_erbast ++ (sortAscByEnergy static_erbast).mapIdx (fun n e =>
      if (n : ℤ) < veg then { e with energy := e.energy + 1 }
      else { e with social_attitude := e.social_attitude / HUNGER_E }))

/-- `Pride.hunting` on a cell whose herbivore grid count is `herb_count`:
with no herd present, every Carviz has its social attitude divided by
`HUNGER_C`.  With a herd present, its strongest Erbast is removed and its
energy is shared: the Carviz are sorted by increasing energy, each gains
`gained_energy // len(population)` (with `MAX_ENERGY_C` as a hard cap) and
the first `gained_energy % len(population)` of them one extra point, and
every Carviz gains `EAT_C` of social attitude; the grid count decreases by
one.  The result is the updated pride, the updated herd (as an `Option`)
and the updated grid count.  The empty-sorted-herd branch is a formal
placeholder: the day cycle only passes nonempty herds here (the source
would raise `IndexError` on `pop(0)` otherwise). -/
def hunting (herb_count : ℤ) (pop : List Specie) (hunted_herd : Option (List Specie)) :
    List Specie × Option (List Specie) × ℤ :=
  match hunted_herd with
  | none => (pop.map (fun c => { c with social_attitude := c.social_attitude / HUNGER_C }),
             none, herb_count)
  | some herd =>
    match sortDescByEnergy herd with
    | [] => (pop, some [], herb_count - 1)
    | prey :: rest =>
      let energy_per_carviz := prey.energy.fdiv pop.length
      let spare_energy := prey.energy.fmod pop.length
      ((sortAscByEnergy pop).mapIdx (fun n c =>
        { c with
          energy := min (c.energy + energy_per_carviz
            + (if (n : ℤ) < spare_energy then 1 else 0)) MAX_ENERGY_C,
          social_attitude := c.social_attitude + EAT_C }),
       some rest, herb_count - 1)

/-- C4: the agent bounds are not maintained by every phase.  An Erbast at
the maximum energy 100 that grazes on an abundant cell ends the Grazing
phase with energy 101 > `MAX_ENERGY_E` (the source adds 1 without capping),
and a Carviz with social attitude 99/100 that hunts ends the Hunting phase
with social attitude 26/25 > 1 (the source adds `EAT_C` without clamping). -/
theorem agent_bounds_violated :
    ((grazing 5 [⟨100, 100, 0, 1/2, false⟩]).2 = [⟨101, 100, 0, 1/2, false⟩] ∧
      MAX_ENERGY_E < (101 : ℤ)) ∧
    ((hunting 3 [⟨10, 100, 0, 99/100, false⟩] (some [⟨23, 50, 0, 1/2, false⟩])).1
        = [⟨33, 100, 0, 26/25, false⟩] ∧ (1 : ℚ) < 26/25) := by
  refine ⟨⟨by decide, by decide⟩, ⟨by decide, by decide⟩⟩

theorem sortDescByEnergy_perm (l : List Specie) : (sortDescByEnergy l).Perm l :=
  List.perm_insertionSort energyDesc l

theorem sortAscByEnergy_perm (l : List Specie) : (sortAscByEnergy l).Perm l :=
  List.perm_insertionSort energyAsc l

theorem sortDescByEnergy_sorted (l : List Specie) :
    List.Sorted energyDesc (sortDescByEnergy l) :=
  List.sorted_insertionSort energyDesc l

/-- C6: hunting a nonempty herd with a nonempty pride removes the maximal
energy Erbast (the head of the descending sort), leaving a herd smaller by
one; its energy `E` is split over the `n` sorted pride members so that
`n * (E // n) + E % n = E` with `0 ≤ E % n < n` (every unit of `E` is
allocated exactly once); the member at ascending-energy position `i` ends
with energy `min (old + E // n + (1 if i < E % n else 0)) MAX_ENERGY_C` and
social attitude increased by `EAT_C`; and the cell's herbivore grid count
decreases by exactly one. -/
theorem hunting_distribution (herb_count : ℤ) (pop herd : List Specie)
    (hpop : pop ≠ []) (hherd : herd ≠ [])
    (hE : ∀ a ∈ herd, 0 ≤ a.energy) :
    ∃ prey rest, sortDescByEnergy herd = prey :: rest ∧
      (∀ a ∈ herd, a.energy ≤ prey.energy) ∧
      (hunting herb_count pop (some herd)).2.1 = some rest ∧
      rest.length + 1 = herd.length ∧
      (hunting herb_count pop (some herd)).2.2 = herb_count - 1 ∧
      (hunting herb_count pop (some herd)).1.length = pop.length ∧
      (pop.length : ℤ) * (prey.energy.fdiv pop.length) + prey.energy.fmod pop.length
        = prey.energy ∧
      0 ≤ prey.energy.fmod pop.length ∧
      prey.energy.fmod pop.length < (pop.length : ℤ) ∧
      ∀ (i : ℕ) (hi : i < (hunting herb_count pop (some herd)).1.length)
        (hj : i < (sortAscByEnergy pop).length),
        ((hunting herb_count pop (some herd)).1.get ⟨i, hi⟩).energy
          = min (((sortAscByEnergy pop).get ⟨i, hj⟩).energy
              + prey.energy.fdiv pop.length
              + (if (i : ℤ) < prey.energy.fmod pop.length then 1 else 0)) MAX_ENERGY_C ∧
        ((hunting herb_count pop (some herd)).1.get ⟨i, hi⟩).social_attitude
          = ((sortAscByEnergy pop).get ⟨i, hj⟩).social_attitude + EAT_C := by
  have hperm := sortDescByEnergy_perm herd
  cases hsort : sortDescByEnergy herd with
  | nil =>
    rw [hsort] at hperm
    exact absurd hperm.symm.eq_nil hherd
  | cons prey rest =>
    rw [hsort] at hperm
    have hlen0 : (0 : ℤ) < (pop.length : ℤ) := by
      exact_mod_cast List.length_pos.2 hpop
    have hpreyE : 0 ≤ prey.energy :=
      hE prey (hperm.mem_iff.1 (List.mem_cons_self prey rest))
    refine ⟨prey, rest, rfl, ?_, ?_, ?_, ?_, ?_, ?_, ?_, ?_, ?_⟩
    · intro a ha
      rcases List.mem_cons.1 (hperm.mem_iff.2 ha) with h | h
      · exact le_of_eq (congrArg Specie.energy h)
      · have hs := sortDescByEnergy_sorted herd
        rw [hsort] at hs
        exact List.rel_of_sorted_cons hs a h
    · simp only [hunting, hsort]
    · simpa using hperm.length_eq
    · simp only [hunting, hsort]
    · simp only [hunting, hsort, List.length_mapIdx]
      exact (sortAscByEnergy_perm pop).length_eq
    · exact Int.fdiv_add_fmod prey.energy pop.length
    · exact Int.fmod_nonneg hpreyE hlen0.le
    · exact Int.fmod_lt_of_pos prey.energy hlen0
    · intro i hi hj
      constructor <;>
        simp only [hunting, hsort, List.get_eq_getElem, List.getElem_mapIdx]

/-- C6 witness: the specification's scenario.  A pride of five Carviz with
energies 2..6 hunts a herd whose strongest Erbast has energy 23: the grid
count drops from 9 to 8 and the pride still has five members (each having
gained floor(23/5) = 4, the three weakest one extra point). -/
theorem hunting_distribution_witness :
    (hunting 9 [⟨2, 50, 0, 1/2, false⟩, ⟨3, 50, 0, 1/2, false⟩, ⟨4, 50, 0, 1/2, false⟩,
        ⟨5, 50, 0, 1/2, false⟩, ⟨6, 50, 0, 1/2, false⟩]
      (some [⟨7, 50, 0, 1/2, false⟩, ⟨23, 60, 0, 1/2, false⟩])).2.2 = 8 ∧
    (hunting 9 [⟨2, 50, 0, 1/2, false⟩, ⟨3, 50, 0, 1/2, false⟩, ⟨4, 50, 0, 1/2, false⟩,
        ⟨5, 50, 0, 1/2, false⟩, ⟨6, 50, 0, 1/2, false⟩]
      (some [⟨7, 50, 0, 1/2, false⟩, ⟨23, 60, 0, 1/2, false⟩])).1
      = [⟨7, 50, 0, 11/20, false⟩, ⟨8, 50, 0, 11/20, false⟩, ⟨9, 50, 0, 11/20, false⟩,
         ⟨9, 50, 0, 11/20, false⟩, ⟨10, 50, 0, 11/20, false⟩] := by
  obtain ⟨prey, rest, hsort, hmax, hrest, hlen, hcount, hplen, halloc, h0, hlt, hidx⟩ :=
    hunting_distribution 9
      [⟨2, 50, 0, 1/2, false⟩, ⟨3, 50, 0, 1/2, false⟩, ⟨4, 50, 0, 1/2, false⟩,
       ⟨5, 50, 0, 1/2, false⟩, ⟨6, 50, 0, 1/2, false⟩]
      [⟨7, 50, 0, 1/2, false⟩, ⟨23, 60, 0, 1/2, false⟩]
      (by decide) (by decide) (by decide)
  refine ⟨by rw [hcount]; decide, by decide⟩

/- ------------------------------------------------------------------ -/
/- World bookkeeping (remove_empty_groups, update_stats grid layers)   -/
/- ------------------------------------------------------------------ -/

/-- A grid cell, a `(row, column)` pair. -/
abbrev Cell := ℕ × ℕ

/-- `World.remove_empty_groups` for one species dictionary (modelled as an
association list from cells to populations): drop every group whose
population is empty. -/
def remove_empty_groups (groups : List (Cell × List Specie)) : List (Cell × List Specie) :=
  groups.filter (fun cg => !(cg.2.length == 0))

/-- The species count layer rebuilt by `World.update_stats`: a fresh zero
grid into which, for each dictionary entry, the population size is written
at the entry's cell, read back at cell `c`.  A later entry overwrites an
earlier one at the same cell, as the source's assignments would. -/
def stats_count_layer (groups : List (Cell × List Specie)) (c : Cell) : ℕ :=
  groups.foldl (fun acc cg => if cg.1 = c then cg.2.length else acc) 0

/-- Dictionary lookup: the population of the group resident at cell `c`,
if any. -/
def lookup_group : List (Cell × List Specie) → Cell → Option (List Specie)
  | [], _ => none
  | cg :: gs, c => if cg.1 = c then some cg.2 else lookup_group gs c

theorem stats_foldl_of_no_match (c : Cell) (groups : List (Cell × List Specie)) (v : ℕ)
    (h : ∀ cg ∈ groups, cg.1 ≠ c) :
    groups.foldl (fun acc cg => if cg.1 = c then cg.2.length else acc) v = v := by
  induction groups generalizing v with
  | nil => rfl
  | cons g gs ih =>
    rw [List.foldl_cons, if_neg (h g (List.mem_cons_self g gs))]
    exact ih v (fun cg hcg => h cg (List.mem_cons_of_mem g hcg))

theorem stats_count_layer_eq_lookup (groups : List (Cell × List Specie))
    (h : (groups.map Prod.fst).Nodup) (c : Cell) :
    stats_count_layer groups c = ((lookup_group groups c).map List.length).getD 0 := by
  induction groups with
  | nil => rfl
  | cons g gs ih =>
    rw [List.map_cons, List.nodup_cons] at h
    by_cases hc : g.1 = c
    · have hnot : ∀ cg ∈ gs, cg.1 ≠ c := by
        intro cg hcg hcgc
        exact h.1 (hc ▸ hcgc ▸ List.mem_map_of_mem Prod.fst hcg)
      rw [stats_count_layer, List.foldl_cons, if_pos hc,
        stats_foldl_of_no_match c gs _ hnot, lookup_group, if_pos hc]
      rfl
    · rw [stats_count_layer, List.foldl_cons, if_neg hc, lookup_group, if_neg hc]
      exact ih h.2

/-- C2: once the day's Cleanup (`remove_empty_groups`) has run and the
Stats phase has rebuilt the count layers, the herbivore layer at every cell
equals the population size of the herd resident there (0 when none) and
the carnivore layer equals the population size of the resident pride
(0 when none), provided each dictionary binds every cell at most once. -/
theorem grid_counts_match_groups (herds prides : List (Cell × List Specie))
    (hh : (herds.map Prod.fst).Nodup) (hp : (prides.map Prod.fst).Nodup) (c : Cell) :
    stats_count_layer (remove_empty_groups herds) c
      = ((lookup_group (remove_empty_groups herds) c).map List.length).getD 0 ∧
    stats_count_layer (remove_empty_groups prides) c
      = ((lookup_group (remove_empty_groups prides) c).map List.length).getD 0 := by
  constructor <;> apply stats_count_layer_eq_lookup
  · exact hh.sublist ((List.filter_sublist herds).map Prod.fst)
  · exact hp.sublist ((List.filter_sublist prides).map Prod.fst)

/-- C2 witness: a world with one herd of one Erbast at cell (1,1), an
emptied herd at cell (2,2) and one pride of two Carviz at cell (1,1),
checked at cell (1,1). -/
theorem grid_counts_match_groups_witness :
    (stats_count_layer
        (remove_empty_groups [((1, 1), [⟨5, 50, 0, 1/2, false⟩]), ((2, 2), [])]) (1, 1)
      = ((lookup_group
          (remove_empty_groups [((1, 1), [⟨5, 50, 0, 1/2, false⟩]), ((2, 2), [])])
          (1, 1)).map List.length).getD 0) ∧
    (stats_count_layer
        (remove_empty_groups [((1, 1), [⟨6, 50, 0, 1/2, false⟩, ⟨7, 50, 0, 1/2, false⟩])])
        (1, 1)
      = ((lookup_group
          (remove_empty_groups [((1, 1), [⟨6, 50, 0, 1/2, false⟩, ⟨7, 50, 0, 1/2, false⟩])])
          (1, 1)).map List.length).getD 0) :=
  grid_counts_match_groups
    [((1, 1), [⟨5, 50, 0, 1/2, false⟩]), ((2, 2), [])]
    [((1, 1), [⟨6, 50, 0, 1/2, false⟩, ⟨7, 50, 0, 1/2, false⟩])]
    (by decide) (by decide) (1, 1)

/- ------------------------------------------------------------------ -/
/- Division safety of the movement phase                               -/
/- ------------------------------------------------------------------ -/

/-- The range of the attributes of an agent created by `Group.world_init`:
`energy = random.randint(0, MAX_ENERGY)`,
`lifetime = random.randint(1, MAX_LIFE)`,
`social_attitude = random.random()` which ranges over `[0, 1)`,
`age = 0` and `moved = False`. -/
def world_init_admissible (MAX_ENERGY MAX_LIFE : ℤ) (a : Specie) : Prop :=
  0 ≤ a.energy ∧ a.energy ≤ MAX_ENERGY ∧ 1 ≤ a.lifetime ∧ a.lifetime ≤ MAX_LIFE ∧
  0 ≤ a.social_attitude ∧ a.social_attitude < 1 ∧ a.age = 0 ∧ a.moved = false

/-- The definedness condition of the stay-branch divergence test of
`Herd.movement` and `Pride.movement`: the Python expression
`energy / social_attitude` is evaluated for every agent of the population,
and it faults unless every social attitude is non-zero. -/
def movement_divisions_defined (pop : List Specie) : Prop :=
  ∀ a ∈ pop, a.social_attitude ≠ 0

/-- C9: the divisions of the movement phase do not have provably non-zero
denominators: the agent with energy 50, lifetime 100 and social attitude 0
is admissible for `Group.world_init` (`random.random()` can return 0.0),
and a staying group containing it evaluates `energy / social_attitude`
with a zero denominator. -/
theorem movement_division_by_zero_reachable :
    world_init_admissible MAX_ENERGY_E MAX_LIFE_E ⟨50, 100, 0, 0, false⟩ ∧
    ¬ movement_divisions_defined [⟨50, 100, 0, 0, false⟩] := by
  constructor
  · exact ⟨by decide, by decide, by decide, by decide, by decide, by decide, rfl, rfl⟩
  · intro h
    exact h ⟨50, 100, 0, 0, false⟩ (List.mem_singleton.2 rfl) rfl

/-- C8: the second offspring's lifetime `2*parent.lifetime - lifetime1` is
not clamped by the draw bounds: for the admissible parent lifetime
`MAX_LIFE_E = 1000` and the admissible draw `lifetime1 = 1`, the sibling is
created with lifetime `1999`, exceeding the species maximum. -/
theorem offspring_lifetime_exceeds_max :
    lifetime1_draw_ok MAX_LIFE_E ⟨50, 1000, 1000, 1/2, false⟩ 1 ∧
    (1 : ℤ) ≤ 1000 ∧ (1000 : ℤ) ≤ MAX_LIFE_E ∧
    (spawn_offsprings ⟨50, 1000, 1000, 1/2, false⟩ 25 1 (1/2)).2.lifetime = 1999 ∧
    MAX_LIFE_E < (spawn_offsprings ⟨50, 1000, 1000, 1/2, false⟩ 25 1 (1/2)).2.lifetime := by
  refine ⟨⟨by decide, by decide⟩, by decide, by decide, by decide, by decide⟩
